import Mathlib

/-!
Verification of the keiko short-link redirector.

The repository contains two worker variants plus a proxied resolver:
* `src/index.ts` (first app): local-KV keiko — `generateKey`, `ensureHttps`,
  admin create/update/delete against a Workers KV store;
* `src/index.ts` (second app): proxied dual-environment resolver —
  `isDev`, `getApiBase`, `getTTL`, `tryFetchWithFallback`, the `/:slug`
  and `/e/:slug` handlers, with `analytics.ts` `sendAnalytics`;
* `unnamed/part_000` (rinku-vanilla variant): deterministic SHA-512-based
  key generation, delete-without-check, POST `/api/new`.

JavaScript strings are modelled as Lean `String`, with the JS builtins
(`startsWith`, `endsWith`, `includes`, `slice`, `replace(/\/$/, '')`)
embedded as list-of-character operations below.  The Workers KV store is
modelled as an association list.
-/

namespace Keiko

/-- JS `s.startsWith(pat)`. -/
def strStartsWith (s pat : String) : Bool :=
  pat.toList.isPrefixOf s.toList

/-- JS `s.endsWith(pat)`. -/
def strEndsWith (s pat : String) : Bool :=
  pat.toList.isSuffixOf s.toList

/-- JS `s.includes(pat)` (substring containment). -/
def includesStr (s pat : String) : Bool :=
  decide (pat.toList <:+: s.toList)

/-- JS `s.slice(n)` (drop the first `n` characters). -/
def strDrop (s : String) (n : Nat) : String :=
  String.mk (s.toList.drop n)

/-- JS `s.slice(a, b)`: characters from index `a` (inclusive) to `b`
(exclusive), clamped to the string length. -/
def sliceStr (s : String) (a b : Nat) : String :=
  String.mk ((s.toList.drop a).take (b - a))

/-- JS `s.replace(/\/$/, '')`: remove a single trailing slash if present. -/
def stripTrailingSlash (s : String) : String :=
  if strEndsWith s "/" then String.mk s.toList.dropLast else s

/-- The characters after the first occurrence of `"://"`, or `none` when
there is no such occurrence. -/
def afterSchemeSep : List Char → Option (List Char)
  | ':' :: '/' :: '/' :: rest => some rest
  | _ :: rest => afterSchemeSep rest
  | [] => none

/-- The hostname component of a URL, as produced by JS `new URL(u).hostname`
for URLs of the form `scheme://host[:port][/path][?query][#frag]`:
everything after the first `://` up to the first `/`, `:`, `?` or `#`. -/
def hostnameOf (url : String) : String :=
  match afterSchemeSep url.toList with
  | none => ""
  | some rest =>
    String.mk (rest.takeWhile
      (fun ch => !(ch == '/' || ch == ':' || ch == '?' || ch == '#')))

/-! ## KeyStore model (Workers KV `get` / `put` / `delete`) -/

/-- The KV namespace: an association list from key to stored value. -/
abbrev Store := List (String × String)

/-- `KV.get(key)`: the value bound to `key`, or `none` when absent. -/
def kvGet : Store → String → Option String
  | [], _ => none
  | (k, v) :: rest, key => if k == key then some v else kvGet rest key

/-- `KV.delete(key)`: remove every binding of `key` (a no-op when absent). -/
def kvDelete (store : Store) (key : String) : Store :=
  store.filter (fun p => !(p.1 == key))

/-- `KV.put(key, value)`: bind `key` to `value`, replacing any old binding. -/
def kvPut (store : Store) (key value : String) : Store :=
  (key, value) :: kvDelete store key

theorem kvDelete_of_absent (store : Store) (key : String)
    (h : kvGet store key = none) : kvDelete store key = store := by
  induction store with
  | nil => rfl
  | cons p rest ih =>
    obtain ⟨k, v⟩ := p
    unfold kvGet at h
    by_cases hk : (k == key) = true
    · rw [if_pos hk] at h
      cases h
    · rw [if_neg hk] at h
      have hked : (k == key) = false := by
        cases hkv : (k == key) <;> simp_all
      have htail : kvDelete rest key = rest := ih h
      simp only [kvDelete, List.filter_cons, hked] at htail ⊢
      simp [htail]

/-! ## `generateKey` (src/index.ts lines 31–35)

```ts
function generateKey(): string {
  return Array.from(crypto.getRandomValues(new Uint8Array(8)))
    .map(n => 'ABCDEFGHIJKLMNOPQRSTUVWXYZabcdefghijklmnopqrstuvwxyz0123456789'[n % 62])
    .join('');
}
```

The eight cryptographically random bytes are passed in as a list. -/

def keyAlphabet : String :=
  "ABCDEFGHIJKLMNOPQRSTUVWXYZabcdefghijklmnopqrstuvwxyz0123456789"

def generateKey (randomBytes : List Nat) : String :=
  String.mk (randomBytes.map (fun n => keyAlphabet.toList.getD (n % 62) 'A'))

/-! ## `ensureHttps` (src/index.ts lines 38–46)

```ts
function ensureHttps(url: string): string {
  if (url.startsWith('http://')) {
    return url.replace('http://', 'https://');
  }
  if (!url.startsWith('https://')) {
    return `https://${url}`;
  }
  return url;
}
```

Since the `replace` is guarded by `startsWith('http://')`, the first
occurrence replaced is the prefix itself. -/

def ensureHttps (url : String) : String :=
  if strStartsWith url "http://" then "https://" ++ strDrop url 7
  else if strStartsWith url "https://" then url
  else "https://" ++ url

/-! ### String helper lemmas -/

theorem strStartsWith_append_self (pat t : String) :
    strStartsWith (pat ++ t) pat = true := by
  simp [strStartsWith]

theorem starts_https_of_ensureHttps (s : String) :
    strStartsWith (ensureHttps s) "https://" = true := by
  unfold ensureHttps
  split
  · exact strStartsWith_append_self "https://" _
  · split
    · assumption
    · exact strStartsWith_append_self "https://" _

theorem not_http_of_starts_https (s : String)
    (h : strStartsWith s "https://" = true) :
    strStartsWith s "http://" = false := by
  have h' : "https://".toList <+: s.toList := by
    unfold strStartsWith at h
    exact List.isPrefixOf_iff_prefix.mp h
  obtain ⟨t, ht⟩ := h'
  unfold strStartsWith
  rw [← ht]
  rfl

/-! ## Admin operations of the local-KV keiko app (src/index.ts)

`PUT /api/new` (lines 124–158), `PATCH /api/:key` (lines 161–183),
`DELETE /api/:key` (lines 186–201).  Request bodies are modelled as
optional fields; `some k` for the custom key models a truthy (present,
non-empty) `body.key`.  The random generator is modelled as a stream
`gen : Nat → String` of candidate keys with a fuel bound on the
do/while probe loop (`none` from the loop means the loop did not
terminate within the fuel). -/

inductive AdminOutcome
  | ok (key url : String)
  | badRequest (msg : String)
  | conflict (msg : String)
  | notFound (msg : String)
  | deleted
  | genDiverged
deriving DecidableEq

/-- The `do { key = generateKey() } while (await c.env.KV.get(key))` loop
of `PUT /api/new`, probing candidate keys `gen 0, gen 1, ...`. -/
def genLoop (store : Store) (gen : Nat → String) : Nat → Nat → Option String
  | 0, _ => none
  | fuel + 1, i =>
    let key := gen i
    match kvGet store key with
    | none => some key
    | some _ => genLoop store gen fuel (i + 1)

/-- `PUT /api/new`: create a short URL (custom or generated key). -/
def createShortUrl (store : Store) (bodyUrl bodyKey : Option String)
    (gen : Nat → String) (fuel : Nat) : AdminOutcome × Store :=
  match bodyUrl with
  | none => (.badRequest "URL is required", store)
  | some u =>
    match bodyKey with
    | some k =>
      if k.length > 32 then
        (.badRequest "Key length must not exceed 32 characters", store)
      else
        match kvGet store k with
        | some _ => (.conflict "Key already exists", store)
        | none =>
          let url := ensureHttps u
          (.ok k url, kvPut store k url)
    | none =>
      match genLoop store gen fuel 0 with
      | none => (.genDiverged, store)
      | some k =>
        let url := ensureHttps u
        (.ok k url, kvPut store k url)

/-- `PATCH /api/:key`: update an existing short URL. -/
def updateUrl (store : Store) (key : String) (bodyUrl : Option String) :
    AdminOutcome × Store :=
  match bodyUrl with
  | none => (.badRequest "URL is required", store)
  | some u =>
    match kvGet store key with
    | none => (.notFound "Key not found", store)
    | some _ =>
      let url := ensureHttps u
      (.ok key url, kvPut store key url)

/-- `DELETE /api/:key`: delete a short URL, `404` when the key is absent. -/
def deleteApiKey (store : Store) (key : String) : AdminOutcome × Store :=
  match kvGet store key with
  | none => (.notFound "Key not found", store)
  | some _ => (.deleted, kvDelete store key)

theorem ensureHttps_of_starts_https (t : String)
    (h : strStartsWith t "https://" = true) : ensureHttps t = t := by
  simp [ensureHttps, not_http_of_starts_https t h, h]

theorem mem_kvPut (store : Store) (k url : String) (p : String × String)
    (h : p ∈ kvPut store k url) : p = (k, url) ∨ p ∈ store := by
  unfold kvPut at h
  rcases List.mem_cons.mp h with h | h
  · exact Or.inl h
  · exact Or.inr (List.mem_of_mem_filter h)

theorem ensureHttps_idem (s : String) :
    ensureHttps (ensureHttps s) = ensureHttps s :=
  ensureHttps_of_starts_https _ (starts_https_of_ensureHttps s)

theorem createShortUrl_store_shape (store : Store) (bodyUrl bodyKey : Option String)
    (gen : Nat → String) (fuel : Nat) (p : String × String)
    (hp : p ∈ (createShortUrl store bodyUrl bodyKey gen fuel).2) :
    p ∈ store ∨ ∃ k u, p = (k, ensureHttps u) := by
  unfold createShortUrl at hp
  split at hp
  · exact Or.inl hp
  · split at hp
    · split at hp
      · exact Or.inl hp
      · split at hp
        · exact Or.inl hp
        · rcases mem_kvPut _ _ _ _ hp with h | h
          · exact Or.inr ⟨_, _, h⟩
          · exact Or.inl h
    · split at hp
      · exact Or.inl hp
      · rcases mem_kvPut _ _ _ _ hp with h | h
        · exact Or.inr ⟨_, _, h⟩
        · exact Or.inl h

theorem updateUrl_store_shape (store : Store) (key : String) (bodyUrl : Option String)
    (p : String × String) (hp : p ∈ (updateUrl store key bodyUrl).2) :
    p ∈ store ∨ ∃ k u, p = (k, ensureHttps u) := by
  unfold updateUrl at hp
  split at hp
  · exact Or.inl hp
  · split at hp
    · exact Or.inl hp
    · rcases mem_kvPut _ _ _ _ hp with h | h
      · exact Or.inr ⟨_, _, h⟩
      · exact Or.inl h

/-- C10: `ensureHttps` always yields a string beginning with `"https://"`,
it is idempotent, and every entry of the KeyStore after a create
(`PUT /api/new`) or update (`PATCH /api/:key`) operation either was
already in the store or has a value beginning with `"https://"` (so every
value *written* by those operations begins with `"https://"`). -/
theorem ensureHttps_contract :
    (∀ s, strStartsWith (ensureHttps s) "https://" = true) ∧
    (∀ s, ensureHttps (ensureHttps s) = ensureHttps s) ∧
    (∀ store bodyUrl bodyKey gen fuel p,
      p ∈ (createShortUrl store bodyUrl bodyKey gen fuel).2 →
        p ∈ store ∨ strStartsWith p.2 "https://" = true) ∧
    (∀ store key bodyUrl p,
      p ∈ (updateUrl store key bodyUrl).2 →
        p ∈ store ∨ strStartsWith p.2 "https://" = true) := by
  refine ⟨starts_https_of_ensureHttps, ensureHttps_idem, ?_, ?_⟩
  · intro store bodyUrl bodyKey gen fuel p hp
    rcases createShortUrl_store_shape store bodyUrl bodyKey gen fuel p hp with h | ⟨k, u, rfl⟩
    · exact Or.inl h
    · exact Or.inr (starts_https_of_ensureHttps u)
  · intro store key bodyUrl p hp
    rcases updateUrl_store_shape store key bodyUrl p hp with h | ⟨k, u, rfl⟩
    · exact Or.inl h
    · exact Or.inr (starts_https_of_ensureHttps u)

theorem ensureHttps_contract_witness :
    (("k1", "https://x.org") ∈ (createShortUrl [] (some "x.org") (some "k1")
        (fun _ => "r") 1).2) ∧
    ((("k1", "https://x.org") ∈ ([] : Store) ∨
      strStartsWith ("k1", "https://x.org").2 "https://" = true)) :=
  ⟨by decide, ensureHttps_contract.2.2.1 [] (some "x.org") (some "k1")
      (fun _ => "r") 1 ("k1", "https://x.org") (by decide)⟩

/-- C9: for every draw of eight random bytes, `generateKey` returns a key
of length exactly 8 whose every character is drawn from the alphanumeric
alphabet `[A-Za-z0-9]`. -/
theorem generateKey_contract (randomBytes : List Nat)
    (h : randomBytes.length = 8) :
    (generateKey randomBytes).length = 8 ∧
      ∀ ch ∈ (generateKey randomBytes).toList, ch ∈ keyAlphabet.toList := by
  constructor
  · simp [generateKey, h]
  · intro ch hch
    have hch' : ch ∈ randomBytes.map
        (fun n => keyAlphabet.toList.getD (n % 62) 'A') := hch
    obtain ⟨n, _, rfl⟩ := List.mem_map.mp hch'
    have hlt : n % 62 < keyAlphabet.toList.length := by
      have h62 : keyAlphabet.toList.length = 62 := by decide
      rw [h62]
      exact Nat.mod_lt _ (by decide)
    rw [List.getD_eq_getElem?_getD, List.getElem?_eq_getElem hlt,
      Option.getD_some]
    exact List.getElem_mem hlt

theorem generateKey_contract_witness :
    (List.length [0, 5, 30, 61, 62, 124, 200, 255] = 8) ∧
    ((generateKey [0, 5, 30, 61, 62, 124, 200, 255]).length = 8 ∧
      ∀ ch ∈ (generateKey [0, 5, 30, 61, 62, 124, 200, 255]).toList,
        ch ∈ keyAlphabet.toList) :=
  ⟨by decide, generateKey_contract _ (by decide)⟩

/-! ## Proxied dual-environment resolver (second app in src/index.ts)

Environment bindings, the dev/prod determination, and the remote
resolution pipeline.  The ambient `fetch` is modelled as an oracle from
URL to outcome (the Cloudflare Access credential headers attached for
`dev.pfr.wtf` do not change the modelled outcome and are omitted). -/

structure Env where
  DOMAIN_PROD : String
  DOMAIN_DEV : String
  PLAUSIBLE_DOMAIN_PROD : String
  PLAUSIBLE_DOMAIN_DEV : String
  FALLBACK_REDIRECT : String
deriving DecidableEq

/-- `isDev` (lines 236–242): the request hostname starts with `'dev.'`. -/
def isDev (reqUrl : String) : Bool :=
  strStartsWith (hostnameOf reqUrl) "dev."

/-- `getApiBase` (lines 245–250). -/
def getApiBase (env : Env) (reqUrl : String) : String :=
  let domain := if isDev reqUrl then env.DOMAIN_DEV else env.DOMAIN_PROD
  "https://" ++ stripTrailingSlash domain

/-- `getApiEndpoint` (lines 253–256), `ty ∈ {"internal", "external"}`. -/
def getApiEndpoint (env : Env) (reqUrl ty slug : String) : String :=
  getApiBase env reqUrl ++ "/api/keiko/" ++ ty ++ "/" ++ slug ++ "/"

/-- `getPlausibleDomain` (lines 259–261). -/
def getPlausibleDomain (env : Env) (reqUrl : String) : String :=
  if isDev reqUrl then env.PLAUSIBLE_DOMAIN_DEV else env.PLAUSIBLE_DOMAIN_PROD

/-- `getTTL` (lines 264–268). -/
def getTTL (reqUrl : String) : Nat :=
  if isDev reqUrl then 86400 else 2592000

/-- The dev/prod test of `analytics.ts` `sendAnalytics` (line 12):
`c.req.url.includes(c.env.DOMAIN_DEV)`. -/
def analyticsIsDev (env : Env) (reqUrl : String) : Bool :=
  includesStr reqUrl env.DOMAIN_DEV

/-- The Plausible domain chosen by `sendAnalytics` (line 13). -/
def analyticsPlausibleDomain (env : Env) (reqUrl : String) : String :=
  if analyticsIsDev env reqUrl then env.PLAUSIBLE_DOMAIN_DEV
  else env.PLAUSIBLE_DOMAIN_PROD

/-- The JSON body of a resolver API response (the `RedirectResponse`
union): `{slug, destination}` or `{error, slug?}`. -/
inductive RedirectJson
  | dest (destination : String)
  | err (msg : String)
deriving DecidableEq

/-- One HTTP response as observed by `tryFetchWithFallback`: whether
`response.ok` held, its status, its `content-type` header, and the JSON
value `response.json()` yields. -/
structure HttpResponse where
  ok : Bool
  status : Nat
  contentType : Option String
  body : RedirectJson
deriving DecidableEq

/-- The outcome of one `fetch`: a settled response, or a thrown network
error. -/
inductive FetchOutcome
  | response (r : HttpResponse)
  | netError (msg : String)
deriving DecidableEq

/-- `contentType && contentType.includes('application/json')` (line 306). -/
def isJsonContentType : Option String → Bool
  | none => false
  | some ct => includesStr ct "application/json"

/-- The `[Response | null, Error | null]` pair returned by
`tryFetchWithFallback`, as a sum. -/
inductive FetchReturn
  | success (r : HttpResponse)
  | failure (msg : String)
deriving DecidableEq

/-- `tryFetchWithFallback` (lines 271–338).  Besides the `[response,
error]` pair it also returns the list of URLs fetched, in order.  The
recursive call passes no fallback, exactly as in the source
(`tryFetchWithFallback(c, fallbackUrl)`). -/
def tryFetchWithFallback (fetch : String → FetchOutcome) :
    String → Option String → FetchReturn × List String
  | apiUrl, fallbackUrl =>
    match fetch apiUrl with
    | .response r =>
      if r.ok then
        if isJsonContentType r.contentType then
          (.success r, [apiUrl])
        else
          match fallbackUrl with
          | some fb =>
            let res := tryFetchWithFallback fetch fb none
            (res.1, apiUrl :: res.2)
          | none =>
            (.failure ("Expected JSON response but got " ++
              (match r.contentType with
               | some ct => ct
               | none => "unknown content type")), [apiUrl])
      else
        match fallbackUrl with
        | some fb =>
          let res := tryFetchWithFallback fetch fb none
          (res.1, apiUrl :: res.2)
        | none =>
          (.failure ("API returned status " ++ toString r.status), [apiUrl])
    | .netError msg =>
      match fallbackUrl with
      | some fb =>
        let res := tryFetchWithFallback fetch fb none
        (res.1, apiUrl :: res.2)
      | none => (.failure msg, [apiUrl])
termination_by _ fallbackUrl => fallbackUrl.elim 0 (fun _ => 1)
decreasing_by all_goals simp [Option.elim]

/-- An attempt at one URL fails when the fetch throws, the response is
non-ok, or the content type is not a JSON media type. -/
def attemptFails (o : FetchOutcome) : Bool :=
  match o with
  | .netError _ => true
  | .response r => !(r.ok && isJsonContentType r.contentType)

/-- An analytics event as passed to `sendAnalytics`. -/
structure AnalyticsEvent where
  name : String
  props : List (String × String)
deriving DecidableEq

/-- The observable result of one slug-handler invocation: redirect target,
redirect status, optional `Cache-Control` header, and the analytics
events scheduled via `c.executionCtx.waitUntil(sendAnalytics ...)`. -/
structure HandlerResult where
  location : String
  status : Nat
  cacheControl : Option String
  events : List AnalyticsEvent
deriving DecidableEq

/-- Destination fix-up of the `/:slug` handler (lines 483–499): a
destination not starting with `'http'` is given a leading slash if
missing, a trailing slash if missing, and is prefixed with the API
base; a destination starting with `'http'` passes through unchanged. -/
def internalDestination (apiBase dest : String) : String :=
  if strStartsWith dest "http" then dest
  else
    let d1 := if strStartsWith dest "/" then dest else "/" ++ dest
    let d2 := if strEndsWith d1 "/" then d1 else d1 ++ "/"
    apiBase ++ d2

/-- Destination fix-up of the `/e/:slug` handler (lines 406–410): a
destination not starting with `'http'` and not ending with `'/'` gets a
trailing slash appended. -/
def externalDestination (dest : String) : String :=
  if !strStartsWith dest "http" && !strEndsWith dest "/" then dest ++ "/"
  else dest

/-- `GET /:slug` (lines 427–513). -/
def handleSlug (env : Env) (reqUrl slug : String)
    (fetch : String → FetchOutcome) : HandlerResult :=
  let apiUrlWithSlash := getApiEndpoint env reqUrl "internal" slug
  let apiUrlWithoutSlash := stripTrailingSlash apiUrlWithSlash
  match (tryFetchWithFallback fetch apiUrlWithSlash (some apiUrlWithoutSlash)).1 with
  | .failure msg =>
    { location := env.FALLBACK_REDIRECT, status := 302, cacheControl := none,
      events := [⟨"error", [("slug", slug), ("error", msg)]⟩] }
  | .success r =>
    match r.body with
    | .err e =>
      { location := env.FALLBACK_REDIRECT, status := 302, cacheControl := none,
        events := [⟨"error", [("slug", slug), ("error", e)]⟩] }
    | .dest d =>
      { location := internalDestination (getApiBase env reqUrl) d
        status := 301
        cacheControl := some ("public, max-age=" ++ toString (getTTL reqUrl))
        events := [⟨"redirect", [("slug", slug), ("destination", d)]⟩] }

/-- `GET /e/:slug` (lines 351–424). -/
def handleESlug (env : Env) (reqUrl slug : String)
    (fetch : String → FetchOutcome) : HandlerResult :=
  let apiUrlWithSlash := getApiEndpoint env reqUrl "external" slug
  let apiUrlWithoutSlash := stripTrailingSlash apiUrlWithSlash
  match (tryFetchWithFallback fetch apiUrlWithSlash (some apiUrlWithoutSlash)).1 with
  | .failure msg =>
    { location := env.FALLBACK_REDIRECT, status := 302, cacheControl := none,
      events := [⟨"error", [("slug", "e/" ++ slug), ("error", msg)]⟩] }
  | .success r =>
    match r.body with
    | .err e =>
      { location := env.FALLBACK_REDIRECT, status := 302, cacheControl := none,
        events := [⟨"error", [("slug", "e/" ++ slug), ("error", e)]⟩] }
    | .dest d =>
      { location := externalDestination d
        status := 302
        cacheControl := some ("public, max-age=" ++ toString (getTTL reqUrl))
        events := [⟨"redirect", [("slug", "e/" ++ slug), ("destination", d)]⟩] }

/-! ### Characterization of `tryFetchWithFallback` -/

theorem tryFetch_none_tried (fetch : String → FetchOutcome) (u : String) :
    (tryFetchWithFallback fetch u none).2 = [u] := by
  rw [tryFetchWithFallback]
  split
  · split
    · split
      · rfl
      · rfl
    · rfl
  · rfl

theorem tryFetch_none_fails (fetch : String → FetchOutcome) (u : String)
    (h : attemptFails (fetch u) = true) :
    ∃ m, (tryFetchWithFallback fetch u none).1 = .failure m := by
  rw [tryFetchWithFallback]
  cases hf : fetch u with
  | response r =>
    rw [hf] at h
    have h' : (!(r.ok && isJsonContentType r.contentType)) = true := h
    by_cases hok : r.ok = true
    · have hjson : isJsonContentType r.contentType = false := by
        cases hj : isJsonContentType r.contentType
        · rfl
        · rw [hok, hj] at h'; simp at h'
      simp [hok, hjson]
    · have hok' : r.ok = false := by
        cases ho : r.ok
        · rfl
        · exact absurd ho hok
      simp [hok']
  | netError m => simp

theorem tryFetch_none_succeeds (fetch : String → FetchOutcome) (u : String)
    (h : attemptFails (fetch u) = false) :
    ∃ r, fetch u = .response r ∧
      tryFetchWithFallback fetch u none = (.success r, [u]) := by
  cases hf : fetch u with
  | netError m => rw [hf] at h; simp [attemptFails] at h
  | response r =>
    rw [hf] at h
    have h' : (!(r.ok && isJsonContentType r.contentType)) = false := h
    have hok : r.ok = true := by
      cases ho : r.ok
      · rw [ho] at h'; simp at h'
      · rfl
    have hjson : isJsonContentType r.contentType = true := by
      cases hj : isJsonContentType r.contentType
      · rw [hok, hj] at h'; simp at h'
      · rfl
    refine ⟨r, rfl, ?_⟩
    rw [tryFetchWithFallback, hf]
    simp [hok, hjson]

theorem tryFetch_some_eq (fetch : String → FetchOutcome) (u s : String) :
    tryFetchWithFallback fetch u (some s) =
      if attemptFails (fetch u) = true then
        ((tryFetchWithFallback fetch s none).1,
          u :: (tryFetchWithFallback fetch s none).2)
      else (.success ((fetch u).casesOn id (fun m => ⟨true, 200, none, .err m⟩)),
        [u]) := by
  cases hf : fetch u with
  | netError m =>
    rw [tryFetchWithFallback, hf]
    simp [attemptFails, hf]
  | response r =>
    by_cases hok : r.ok = true
    · by_cases hjson : isJsonContentType r.contentType = true
      · rw [tryFetchWithFallback, hf]
        simp [attemptFails, hf, hok, hjson]
      · have hjson' : isJsonContentType r.contentType = false := by
          cases hj : isJsonContentType r.contentType
          · rfl
          · exact absurd hj hjson
        rw [tryFetchWithFallback, hf]
        simp [attemptFails, hf, hok, hjson']
    · have hok' : r.ok = false := by
        cases ho : r.ok
        · rfl
        · exact absurd ho hok
      rw [tryFetchWithFallback, hf]
      simp [attemptFails, hf, hok']

theorem tryFetch_some_fails (fetch : String → FetchOutcome) (u s : String)
    (h1 : attemptFails (fetch u) = true) (h2 : attemptFails (fetch s) = true) :
    ∃ m, (tryFetchWithFallback fetch u (some s)).1 = .failure m := by
  obtain ⟨m, hm⟩ := tryFetch_none_fails fetch s h2
  refine ⟨m, ?_⟩
  rw [tryFetch_some_eq]
  simp [h1, hm]

theorem tryFetch_some_first_success (fetch : String → FetchOutcome)
    (u s : String) (r : HttpResponse) (hf : fetch u = .response r)
    (hfail : attemptFails (fetch u) = false) :
    (tryFetchWithFallback fetch u (some s)).1 = .success r := by
  rw [hf] at hfail
  rw [tryFetch_some_eq]
  simp [hf, hfail]

/-- C3: `tryFetchWithFallback` performs at most two fetch attempts for
every oracle and candidate pair, and when the primary attempt fails
(network error, non-2xx status, or non-JSON content type) exactly one
retry is issued, against the secondary candidate, with no further
attempts; with a successful primary attempt no retry happens. -/
theorem tryFetchWithFallback_at_most_two :
    (∀ fetch apiUrl fb,
      (tryFetchWithFallback fetch apiUrl fb).2.length ≤ 2) ∧
    (∀ fetch apiUrl s,
      (tryFetchWithFallback fetch apiUrl (some s)).2 =
        if attemptFails (fetch apiUrl) = true then [apiUrl, s]
        else [apiUrl]) := by
  have hsome : ∀ (fetch : String → FetchOutcome) (apiUrl s : String),
      (tryFetchWithFallback fetch apiUrl (some s)).2 =
        if attemptFails (fetch apiUrl) = true then [apiUrl, s]
        else [apiUrl] := by
    intro fetch u s
    rw [tryFetch_some_eq]
    by_cases h : attemptFails (fetch u) = true
    · simp [h, tryFetch_none_tried]
    · simp [h]
  refine ⟨?_, hsome⟩
  intro fetch u fb
  cases fb with
  | none => rw [tryFetch_none_tried]; simp
  | some s =>
    rw [hsome]
    split <;> simp

/-! ### Evaluation lemmas for the slug handlers -/

theorem handleSlug_failure (env : Env) (reqUrl slug : String)
    (fetch : String → FetchOutcome) (m : String)
    (h : (tryFetchWithFallback fetch (getApiEndpoint env reqUrl "internal" slug)
      (some (stripTrailingSlash (getApiEndpoint env reqUrl "internal" slug)))).1 =
        .failure m) :
    handleSlug env reqUrl slug fetch =
      { location := env.FALLBACK_REDIRECT, status := 302, cacheControl := none,
        events := [⟨"error", [("slug", slug), ("error", m)]⟩] } := by
  simp only [handleSlug]
  rw [h]

theorem handleSlug_success_dest (env : Env) (reqUrl slug : String)
    (fetch : String → FetchOutcome) (r : HttpResponse) (d : String)
    (h : (tryFetchWithFallback fetch (getApiEndpoint env reqUrl "internal" slug)
      (some (stripTrailingSlash (getApiEndpoint env reqUrl "internal" slug)))).1 =
        .success r)
    (hd : r.body = .dest d) :
    handleSlug env reqUrl slug fetch =
      { location := internalDestination (getApiBase env reqUrl) d
        status := 301
        cacheControl := some ("public, max-age=" ++ toString (getTTL reqUrl))
        events := [⟨"redirect", [("slug", slug), ("destination", d)]⟩] } := by
  obtain ⟨ok, st, ct, body⟩ := r
  have hb : body = .dest d := hd
  subst hb
  simp only [handleSlug]
  rw [h]

theorem handleSlug_success_err (env : Env) (reqUrl slug : String)
    (fetch : String → FetchOutcome) (r : HttpResponse) (e : String)
    (h : (tryFetchWithFallback fetch (getApiEndpoint env reqUrl "internal" slug)
      (some (stripTrailingSlash (getApiEndpoint env reqUrl "internal" slug)))).1 =
        .success r)
    (he : r.body = .err e) :
    handleSlug env reqUrl slug fetch =
      { location := env.FALLBACK_REDIRECT, status := 302, cacheControl := none,
        events := [⟨"error", [("slug", slug), ("error", e)]⟩] } := by
  obtain ⟨ok, st, ct, body⟩ := r
  have hb : body = .err e := he
  subst hb
  simp only [handleSlug]
  rw [h]

theorem handleESlug_failure (env : Env) (reqUrl slug : String)
    (fetch : String → FetchOutcome) (m : String)
    (h : (tryFetchWithFallback fetch (getApiEndpoint env reqUrl "external" slug)
      (some (stripTrailingSlash (getApiEndpoint env reqUrl "external" slug)))).1 =
        .failure m) :
    handleESlug env reqUrl slug fetch =
      { location := env.FALLBACK_REDIRECT, status := 302, cacheControl := none,
        events := [⟨"error", [("slug", "e/" ++ slug), ("error", m)]⟩] } := by
  simp only [handleESlug]
  rw [h]

theorem handleESlug_success_dest (env : Env) (reqUrl slug : String)
    (fetch : String → FetchOutcome) (r : HttpResponse) (d : String)
    (h : (tryFetchWithFallback fetch (getApiEndpoint env reqUrl "external" slug)
      (some (stripTrailingSlash (getApiEndpoint env reqUrl "external" slug)))).1 =
        .success r)
    (hd : r.body = .dest d) :
    handleESlug env reqUrl slug fetch =
      { location := externalDestination d
        status := 302
        cacheControl := some ("public, max-age=" ++ toString (getTTL reqUrl))
        events := [⟨"redirect", [("slug", "e/" ++ slug), ("destination", d)]⟩] } := by
  obtain ⟨ok, st, ct, body⟩ := r
  have hb : body = .dest d := hd
  subst hb
  simp only [handleESlug]
  rw [h]

/-! ### Concrete fixtures -/

/-- A concrete environment used in concrete evaluations. -/
def envEx : Env :=
  { DOMAIN_PROD := "pfr.wtf"
    DOMAIN_DEV := "dev.pfr.wtf"
    PLAUSIBLE_DOMAIN_PROD := "plausible.example"
    PLAUSIBLE_DOMAIN_DEV := "dev.plausible.example"
    FALLBACK_REDIRECT := "https://pfr.wtf/" }

/-- A fetch oracle on which every attempt throws a network error. -/
def fetchAllFail : String → FetchOutcome :=
  fun _ => .netError "connection refused"

/-- A fetch oracle on which every attempt succeeds with a JSON body
carrying destination `d`. -/
def fetchDest (d : String) : String → FetchOutcome :=
  fun _ => .response ⟨true, 200, some "application/json", .dest d⟩

/-! ## Claim C1: destination classification and redirect status -/

/-- C1 (counterexample): on the unprefixed `/:slug` route a successfully
resolved destination carrying a URL scheme is redirected with status 301
and not with the claimed temporary-redirect status 302; and a
scheme-less destination `"//x"` keeps both of its leading slashes, so it
is not normalized to exactly one leading slash before the API base is
prefixed. -/
theorem slug_route_counterexample :
    (handleSlug envEx "https://pfr.wtf/abc" "abc"
        (fetchDest "https://example.com")).status = 301 ∧
    ¬ (handleSlug envEx "https://pfr.wtf/abc" "abc"
        (fetchDest "https://example.com")).status = 302 ∧
    (handleSlug envEx "https://pfr.wtf/abc" "abc"
        (fetchDest "//x")).location = "https://pfr.wtf//x/" ∧
    ¬ (handleSlug envEx "https://pfr.wtf/abc" "abc"
        (fetchDest "//x")).location = "https://pfr.wtf/x/" := by
  have h1 := handleSlug_success_dest envEx "https://pfr.wtf/abc" "abc"
    (fetchDest "https://example.com")
    ⟨true, 200, some "application/json", .dest "https://example.com"⟩
    "https://example.com"
    (tryFetch_some_first_success _ _ _ _ rfl (by decide)) rfl
  have h2 := handleSlug_success_dest envEx "https://pfr.wtf/abc" "abc"
    (fetchDest "//x") ⟨true, 200, some "application/json", .dest "//x"⟩ "//x"
    (tryFetch_some_first_success _ _ _ _ rfl (by decide)) rfl
  rw [h1, h2]
  refine ⟨rfl, by decide, by decide, by decide⟩

/-- C1 (amended): classification is by route, not by destination syntax.
On the `/:slug` route every successfully resolved destination is
redirected with permanent status 301; a destination not starting with
`'http'` is given a leading slash if missing and a trailing slash if
missing and is then prefixed with the configured API base, while a
destination starting with `'http'` passes through unchanged.  On the
`/e/:slug` route every successfully resolved destination is redirected
with temporary status 302; a destination not starting with `'http'` and
not ending with `'/'` gets a trailing slash appended, the rest pass
through unchanged (no API-base prefixing). -/
theorem route_classification (env : Env) (reqUrl slug d : String)
    (fetch : String → FetchOutcome) (r : HttpResponse)
    (hd : r.body = .dest d) :
    ((tryFetchWithFallback fetch (getApiEndpoint env reqUrl "internal" slug)
        (some (stripTrailingSlash (getApiEndpoint env reqUrl "internal" slug)))).1 =
          .success r →
      (handleSlug env reqUrl slug fetch).status = 301 ∧
      (handleSlug env reqUrl slug fetch).location =
        (if strStartsWith d "http" = true then d
         else
           getApiBase env reqUrl ++
             (let d1 := if strStartsWith d "/" = true then d else "/" ++ d
              if strEndsWith d1 "/" = true then d1 else d1 ++ "/"))) ∧
    ((tryFetchWithFallback fetch (getApiEndpoint env reqUrl "external" slug)
        (some (stripTrailingSlash (getApiEndpoint env reqUrl "external" slug)))).1 =
          .success r →
      (handleESlug env reqUrl slug fetch).status = 302 ∧
      (handleESlug env reqUrl slug fetch).location =
        (if (!strStartsWith d "http" && !strEndsWith d "/") = true then d ++ "/"
         else d)) := by
  constructor
  · intro h
    rw [handleSlug_success_dest env reqUrl slug fetch r d h hd]
    exact ⟨rfl, rfl⟩
  · intro h
    rw [handleESlug_success_dest env reqUrl slug fetch r d h hd]
    exact ⟨rfl, rfl⟩

theorem route_classification_witness :
    (handleSlug envEx "https://pfr.wtf/a" "a" (fetchDest "p")).status = 301 ∧
    (handleESlug envEx "https://pfr.wtf/a" "a" (fetchDest "p")).status = 302 :=
  ⟨((route_classification envEx "https://pfr.wtf/a" "a" "p" (fetchDest "p")
      ⟨true, 200, some "application/json", .dest "p"⟩ rfl).1
      (tryFetch_some_first_success _ _ _ _ rfl (by decide))).1,
   ((route_classification envEx "https://pfr.wtf/a" "a" "p" (fetchDest "p")
      ⟨true, 200, some "application/json", .dest "p"⟩ rfl).2
      (tryFetch_some_first_success _ _ _ _ rfl (by decide))).1⟩

/-! ## Claim C4: both candidates fail → fallback redirect + one error event -/

/-- C4: for every proxied resolution in which both candidate attempts
fail (network error, non-2xx status, or non-JSON body), the final
outcome is a redirect to the configured fallback URL with status 302,
no cache header, and exactly one scheduled analytics event, tagged
`"error"` — on both the `/:slug` and the `/e/:slug` route. -/
theorem both_candidates_fail_fallback (env : Env) (reqUrl slug : String)
    (fetch : String → FetchOutcome)
    (h1 : attemptFails (fetch (getApiEndpoint env reqUrl "internal" slug)) = true)
    (h2 : attemptFails
      (fetch (stripTrailingSlash (getApiEndpoint env reqUrl "internal" slug))) = true)
    (h3 : attemptFails (fetch (getApiEndpoint env reqUrl "external" slug)) = true)
    (h4 : attemptFails
      (fetch (stripTrailingSlash (getApiEndpoint env reqUrl "external" slug))) = true) :
    ((handleSlug env reqUrl slug fetch).location = env.FALLBACK_REDIRECT ∧
     (handleSlug env reqUrl slug fetch).status = 302 ∧
     (handleSlug env reqUrl slug fetch).events.map AnalyticsEvent.name = ["error"]) ∧
    ((handleESlug env reqUrl slug fetch).location = env.FALLBACK_REDIRECT ∧
     (handleESlug env reqUrl slug fetch).status = 302 ∧
     (handleESlug env reqUrl slug fetch).events.map AnalyticsEvent.name = ["error"]) := by
  obtain ⟨m1, hm1⟩ := tryFetch_some_fails fetch _ _ h1 h2
  obtain ⟨m2, hm2⟩ := tryFetch_some_fails fetch _ _ h3 h4
  rw [handleSlug_failure env reqUrl slug fetch m1 hm1,
    handleESlug_failure env reqUrl slug fetch m2 hm2]
  exact ⟨⟨rfl, rfl, rfl⟩, ⟨rfl, rfl, rfl⟩⟩

theorem both_candidates_fail_fallback_witness :
    attemptFails (fetchAllFail "u") = true ∧
    ((handleSlug envEx "https://pfr.wtf/a" "a" fetchAllFail).location =
        "https://pfr.wtf/" ∧
     (handleSlug envEx "https://pfr.wtf/a" "a" fetchAllFail).status = 302 ∧
     (handleSlug envEx "https://pfr.wtf/a" "a" fetchAllFail).events.map
        AnalyticsEvent.name = ["error"]) :=
  ⟨rfl,
    (both_candidates_fail_fallback envEx "https://pfr.wtf/a" "a" fetchAllFail
      rfl rfl rfl rfl).1⟩

/-! ## Claim C5: cache directive policy -/

/-- C5 (counterexample): a request hostname that CONTAINS the dev marker
`"dev."` without starting with it is treated as prod: `getTTL` yields
2592000, not 86400, so "a hostname containing the configured dev marker
yields max-age=86400" fails. -/
theorem ttl_containing_dev_counterexample :
    includesStr (hostnameOf "https://foo.dev.example.com/abc") "dev." = true ∧
    getTTL "https://foo.dev.example.com/abc" = 2592000 ∧
    ¬ getTTL "https://foo.dev.example.com/abc" = 86400 :=
  ⟨by decide, by decide, by decide⟩

/-- C5 (amended): the TTL is a pure function of the request hostname —
86400 exactly when the hostname starts with the dev prefix `'dev.'`,
2592000 otherwise — and the `public, max-age=<TTL>` cache-control
directive is attached exactly on successful redirect outcomes of the
proxied resolution; fallback/error outcomes carry no cache header. -/
theorem cache_policy (env : Env) (reqUrl slug : String)
    (fetch : String → FetchOutcome) :
    (strStartsWith (hostnameOf reqUrl) "dev." = true → getTTL reqUrl = 86400) ∧
    (strStartsWith (hostnameOf reqUrl) "dev." = false → getTTL reqUrl = 2592000) ∧
    (∀ r d, (tryFetchWithFallback fetch (getApiEndpoint env reqUrl "internal" slug)
        (some (stripTrailingSlash (getApiEndpoint env reqUrl "internal" slug)))).1 =
          .success r →
      r.body = .dest d →
      (handleSlug env reqUrl slug fetch).cacheControl =
        some ("public, max-age=" ++ toString (getTTL reqUrl))) ∧
    (∀ m, (tryFetchWithFallback fetch (getApiEndpoint env reqUrl "internal" slug)
        (some (stripTrailingSlash (getApiEndpoint env reqUrl "internal" slug)))).1 =
          .failure m →
      (handleSlug env reqUrl slug fetch).cacheControl = none) ∧
    (∀ r e, (tryFetchWithFallback fetch (getApiEndpoint env reqUrl "internal" slug)
        (some (stripTrailingSlash (getApiEndpoint env reqUrl "internal" slug)))).1 =
          .success r →
      r.body = .err e →
      (handleSlug env reqUrl slug fetch).cacheControl = none) := by
  refine ⟨?_, ?_, ?_, ?_, ?_⟩
  · intro h
    simp [getTTL, isDev, h]
  · intro h
    simp [getTTL, isDev, h]
  · intro r d h hd
    rw [handleSlug_success_dest env reqUrl slug fetch r d h hd]
  · intro m h
    rw [handleSlug_failure env reqUrl slug fetch m h]
  · intro r e h he
    rw [handleSlug_success_err env reqUrl slug fetch r e h he]

theorem cache_policy_witness :
    getTTL "https://dev.pfr.wtf/a" = 86400 ∧
    (handleSlug envEx "https://pfr.wtf/a" "a" fetchAllFail).cacheControl = none := by
  refine ⟨(cache_policy envEx "https://dev.pfr.wtf/a" "a" fetchAllFail).1
    (by decide), ?_⟩
  obtain ⟨m, hm⟩ := tryFetch_some_fails fetchAllFail _ _ rfl rfl
  exact (cache_policy envEx "https://pfr.wtf/a" "a" fetchAllFail).2.2.2.1 m hm

/-! ## Claim C6: single environment determination -/

/-- C6 (counterexample): on the request URL `https://dev.example.com/x`
against an environment whose `DOMAIN_DEV` is `dev.pfr.wtf`, the router
predicate `isDev` selects dev while the analytics predicate selects
prod, and the two components choose different Plausible domains. -/
theorem analytics_predicate_counterexample :
    isDev "https://dev.example.com/x" = true ∧
    analyticsIsDev envEx "https://dev.example.com/x" = false ∧
    getPlausibleDomain envEx "https://dev.example.com/x" = "dev.plausible.example" ∧
    analyticsPlausibleDomain envEx "https://dev.example.com/x" = "plausible.example" :=
  ⟨by decide, by decide, by decide, by decide⟩

/-- C6 (amended): within the router every environment-derived choice —
API base, TTL, Plausible-domain helper — derives from the single
predicate `isDev` (request hostname starts with `'dev.'`), so those
choices agree with each other on every request URL; but the analytics
module selects its Plausible domain by a different predicate (the full
request URL contains `DOMAIN_DEV`), which does not agree with `isDev` on
every request URL and environment. -/
theorem env_single_determination (env : Env) (reqUrl : String) :
    ((isDev reqUrl = true →
        getApiBase env reqUrl = "https://" ++ stripTrailingSlash env.DOMAIN_DEV ∧
        getTTL reqUrl = 86400 ∧
        getPlausibleDomain env reqUrl = env.PLAUSIBLE_DOMAIN_DEV) ∧
     (isDev reqUrl = false →
        getApiBase env reqUrl = "https://" ++ stripTrailingSlash env.DOMAIN_PROD ∧
        getTTL reqUrl = 2592000 ∧
        getPlausibleDomain env reqUrl = env.PLAUSIBLE_DOMAIN_PROD)) ∧
    ¬ (∀ (e : Env) (u : String), analyticsIsDev e u = isDev u) := by
  refine ⟨⟨?_, ?_⟩, ?_⟩
  · intro h
    exact ⟨by simp [getApiBase, h], by simp [getTTL, h],
      by simp [getPlausibleDomain, h]⟩
  · intro h
    exact ⟨by simp [getApiBase, h], by simp [getTTL, h],
      by simp [getPlausibleDomain, h]⟩
  · intro hall
    have hinst := hall envEx "https://dev.example.com/x"
    rw [show analyticsIsDev envEx "https://dev.example.com/x" = false by decide,
      show isDev "https://dev.example.com/x" = true by decide] at hinst
    cases hinst

theorem env_single_determination_witness :
    isDev "https://dev.pfr.wtf/a" = true ∧
    (getApiBase envEx "https://dev.pfr.wtf/a" =
        "https://" ++ stripTrailingSlash envEx.DOMAIN_DEV ∧
      getTTL "https://dev.pfr.wtf/a" = 86400 ∧
      getPlausibleDomain envEx "https://dev.pfr.wtf/a" =
        envEx.PLAUSIBLE_DOMAIN_DEV) :=
  ⟨by decide, (env_single_determination envEx "https://dev.pfr.wtf/a").1.1
    (by decide)⟩

/-! ## The rinku-vanilla variant (unnamed/part_000)

`POST /api/new` (lines 55–93), `DELETE /:key` (lines 95–98).  The
URL-safe-encoded SHA-512 digest of the destination (the `btoa` output
with `/`, `\`, `?` mangled) is supplied as an opaque string parameter
`hash`, since the digest computation itself is cryptographic; the claims
concern the windowing/probe logic over it. -/

/-- The collision-probe loop of the deterministic key generator:

```ts
let curr = 0;
body.key = hash.slice(curr, curr+5)
while ((await c.env.KV.get(body.key)) === undefined) {
  body.key = hash.slice(curr, curr+5)
  curr += 1
}
```

State: current offset `curr` and current candidate `key`; `fuel` bounds
the number of iterations, `none` meaning the loop has not terminated
within `fuel` iterations. -/
def keygenLoop (store : Store) (hash : String) :
    Nat → Nat → String → Option String
  | 0, _, _ => none
  | fuel + 1, curr, key =>
    match kvGet store key with
    | some _ => some key
    | none => keygenLoop store hash fuel (curr + 1) (sliceStr hash curr (curr + 5))

/-- Deterministic key generation of `POST /api/new` when no custom key is
given: initial candidate `hash.slice(0, 5)`, then the probe loop. -/
def detKeyGen (store : Store) (hash : String) (fuel : Nat) : Option String :=
  keygenLoop store hash fuel 0 (sliceStr hash 0 5)

/-- `DELETE /:key` of part_000 (lines 95–98): deletes without checking
existence and always replies with a success text. -/
def rinkuDelete (store : Store) (key : String) : String × Store :=
  ("deleted " ++ key ++ " if it existed.", kvDelete store key)

/-- The response of `POST /api/new` of part_000. -/
inductive RinkuResult
  | keyText (key : String)
  | catError (status : Nat)
  | notFoundResp
  | diverged
deriving DecidableEq

/-- `POST /api/new` of part_000 (lines 55–93): requires `body.url` with a
`"://"` substring; a missing custom key triggers deterministic
generation from the digest `hash`; the chosen key is written only when
it is free, otherwise a 409 cat error is returned. -/
def rinkuCreate (store : Store) (bodyUrl bodyKey : Option String)
    (hash : String) (fuel : Nat) : RinkuResult × Store :=
  match bodyUrl with
  | none => (.notFoundResp, store)
  | some u =>
    if includesStr u "://" = false then (.catError 406, store)
    else
      match
        (match bodyKey with
         | some k => some k
         | none => detKeyGen store hash fuel) with
      | none => (.diverged, store)
      | some k =>
        match kvGet store k with
        | none => (.keyText k, kvPut store k u)
        | some _ => (.catError 409, store)

/-! ## Claim C2: deterministic key generation probe loop -/

/-- C2: the probe loop of the deterministic key generator has its `while`
condition inverted with respect to the claimed rotate-on-collision
behaviour: it keeps rotating while the candidate window is *absent* from
the KeyStore, so whenever it terminates it returns a window that
*collides* with an existing entry, and against an empty KeyStore it
never terminates, whatever the fuel; in particular the whole generation
(`detKeyGen`) never produces a key on an empty store, and no
`ExhaustedKeyspaceError` exists anywhere in this code path. -/
theorem keygenLoop_inverted :
    (∀ store hash fuel curr key k,
      keygenLoop store hash fuel curr key = some k →
        ∃ v, kvGet store k = some v) ∧
    (∀ hash fuel curr key, keygenLoop [] hash fuel curr key = none) ∧
    (∀ hash fuel, detKeyGen [] hash fuel = none) := by
  have hempty : ∀ (hash : String) (fuel curr : Nat) (key : String),
      keygenLoop [] hash fuel curr key = none := by
    intro hash fuel
    induction fuel with
    | zero => intro curr key; rfl
    | succ n ih =>
      intro curr key
      unfold keygenLoop
      exact ih (curr + 1) (sliceStr hash curr (curr + 5))
  refine ⟨?_, hempty, ?_⟩
  · intro store hash fuel
    induction fuel with
    | zero =>
      intro curr key k h
      cases h
    | succ n ih =>
      intro curr key k h
      unfold keygenLoop at h
      cases hkv : kvGet store key with
      | some v =>
        rw [hkv] at h
        cases h
        exact ⟨v, hkv⟩
      | none =>
        rw [hkv] at h
        exact ih _ _ _ h
  · intro hash fuel
    exact hempty hash fuel 0 (sliceStr hash 0 5)

theorem keygenLoop_inverted_witness :
    (keygenLoop [("AbCdE", "https://old.example")] "AbCdEfGhIj" 1 0 "AbCdE" =
      some "AbCdE") ∧
    (∃ v, kvGet [("AbCdE", "https://old.example")] "AbCdE" = some v) :=
  ⟨by decide,
    keygenLoop_inverted.1 [("AbCdE", "https://old.example")] "AbCdEfGhIj"
      1 0 "AbCdE" "AbCdE" (by decide)⟩

/-! ## Claim C7: delete semantics -/

/-- C7 (counterexample): the keiko admin delete (`DELETE /api/:key` of
src/index.ts) DOES report an error for an absent key: deleting `"gone"`
from an empty store returns the 404 "Key not found" outcome rather than
a success, refuting "the delete operation does not report an error for
every key". -/
theorem deleteApiKey_counterexample :
    deleteApiKey [] "gone" = (.notFound "Key not found", []) ∧
    ¬ deleteApiKey [] "gone" = (.deleted, []) :=
  ⟨by decide, by decide⟩

/-- C7 (amended): the rinku-variant delete (`DELETE /:key` of part_000)
is idempotent and always succeeds — for every key, also an absent one,
it replies with its success text, and deleting an absent key leaves the
KeyStore unchanged.  The keiko-variant admin delete (`DELETE /api/:key`
of src/index.ts), by contrast, reports a 404 "Key not found" error for
an absent key (leaving the store unchanged) and deletes present keys. -/
theorem delete_semantics (store : Store) (key : String) :
    ((rinkuDelete store key).1 = "deleted " ++ key ++ " if it existed." ∧
     (kvGet store key = none → rinkuDelete store key =
        ("deleted " ++ key ++ " if it existed.", store))) ∧
    (kvGet store key = none →
      deleteApiKey store key = (.notFound "Key not found", store)) ∧
    (∀ v, kvGet store key = some v →
      deleteApiKey store key = (.deleted, kvDelete store key)) := by
  refine ⟨⟨rfl, ?_⟩, ?_, ?_⟩
  · intro h
    unfold rinkuDelete
    rw [kvDelete_of_absent store key h]
  · intro h
    unfold deleteApiKey
    rw [h]
  · intro v h
    unfold deleteApiKey
    rw [h]

theorem delete_semantics_witness :
    kvGet [] "gone" = none ∧
    rinkuDelete [] "gone" = ("deleted gone if it existed.", []) :=
  ⟨rfl, (delete_semantics [] "gone").1.2 rfl⟩

/-! ## Claim C8: oversized custom key validation -/

/-- C8 (counterexample): the rinku-variant create accepts a 33-character
custom key: no 400-class validation error is returned and a KeyStore
write occurs. -/
theorem rinku_oversized_key_counterexample :
    String.length "aaaaaaaaaaaaaaaaaaaaaaaaaaaaaaaaa" = 33 ∧
    rinkuCreate [] (some "https://example.com")
        (some "aaaaaaaaaaaaaaaaaaaaaaaaaaaaaaaaa") "h" 1 =
      (.keyText "aaaaaaaaaaaaaaaaaaaaaaaaaaaaaaaaa",
        [("aaaaaaaaaaaaaaaaaaaaaaaaaaaaaaaaa", "https://example.com")]) :=
  ⟨by decide, by decide⟩

/-- C8 (amended): the keiko `PUT /api/new` rejects a custom key longer
than 32 characters with a 400-class validation error and performs no
KeyStore write; the rinku `POST /api/new` performs no length validation
at all — any free custom key, of whatever length, is written to the
store and returned. -/
theorem oversized_key_validation (store : Store) (u k : String)
    (gen : Nat → String) (hash : String) (fuel : Nat) :
    (k.length > 32 →
      createShortUrl store (some u) (some k) gen fuel =
        (.badRequest "Key length must not exceed 32 characters", store)) ∧
    (includesStr u "://" = true → kvGet store k = none →
      rinkuCreate store (some u) (some k) hash fuel =
        (.keyText k, kvPut store k u)) := by
  constructor
  · intro h
    unfold createShortUrl
    simp [h]
  · intro hu hk
    unfold rinkuCreate
    simp [hu, hk]

theorem oversized_key_validation_witness :
    (String.length "bbbbbbbbbbbbbbbbbbbbbbbbbbbbbbbbb" > 32 ∧
      createShortUrl [] (some "x.org")
          (some "bbbbbbbbbbbbbbbbbbbbbbbbbbbbbbbbb") (fun _ => "r") 1 =
        (.badRequest "Key length must not exceed 32 characters", [])) ∧
    (includesStr "https://x.org" "://" = true ∧
      rinkuCreate [] (some "https://x.org")
          (some "bbbbbbbbbbbbbbbbbbbbbbbbbbbbbbbbb") "h" 1 =
        (.keyText "bbbbbbbbbbbbbbbbbbbbbbbbbbbbbbbbb",
          [("bbbbbbbbbbbbbbbbbbbbbbbbbbbbbbbbb", "https://x.org")])) :=
  ⟨⟨by decide,
      (oversized_key_validation [] "x.org" "bbbbbbbbbbbbbbbbbbbbbbbbbbbbbbbbb"
        (fun _ => "r") "h" 1).1 (by decide)⟩,
    ⟨by decide,
      (oversized_key_validation [] "https://x.org"
        "bbbbbbbbbbbbbbbbbbbbbbbbbbbbbbbbb" (fun _ => "r") "h" 1).2
        (by decide) rfl⟩⟩
